import Mathlib

/-!
Verification of the onboarding-scraper-api core against its specification.

The Python sources are shallowly embedded as Lean definitions:

* `src/ai/utils/tool_handler.py` — `ToolResult`, `execute_tool_call`,
  `execute_parallel` (thread-pool fan-out modelled by an arbitrary
  completion order of the submitted futures, followed by the source's
  `sorted(..., key=...)` re-ordering, modelled by `List.mergeSort`);
* `src/ai/agentic_analyzer.py` — the bounded agent loop
  `extract_product_snapshot_agentic` (the Azure OpenAI call is an oracle
  `llm : List Message → Bool → ModelResponse`, where the `Bool` says
  whether the request carried the tool catalog);
* `src/utils/redis_event_emitter.py` — `_persist_event` and the emit
  operations over a Redis list, with an explicit failure oracle for the
  Redis operations; Python exceptions are `Except` values;
* `src/api.py` — the `/jobs/{job_id}/stream` generator;
* `src/ai/tools/search.py` — `search_web` argument validation;
* `src/config/tavily.py` — `TavilyClientWithFallback.search` key rotation.

Python `json.loads` / the tool handlers are external collaborators, passed
in as function arguments (`loads`, registry handler maps); JSON objects are
modelled as association lists of strings.
-/

namespace Scraper

/-! ### Small Python-string helpers -/

/-- Boolean list-prefix test (used to model Python's `in` on strings). -/
def matchesAt : List Char → List Char → Bool
  | [], _ => true
  | _ :: _, [] => false
  | a :: as, b :: bs => a == b && matchesAt as bs

/-- Boolean list-infix test. -/
def occursIn (p : List Char) : List Char → Bool
  | [] => matchesAt p []
  | s@(_ :: rest) => matchesAt p s || occursIn p rest

/-- Python `sub in s` on strings. -/
def containsSub (s sub : String) : Bool := occursIn sub.data s.data

/-- Python `str.strip()`: leading and trailing whitespace removed (ASCII
whitespace, which is all these claims need). -/
def pyStrip (s : String) : String :=
  ⟨((s.data.dropWhile Char.isWhitespace).reverse.dropWhile Char.isWhitespace).reverse⟩

/-! ### `src/ai/utils/tool_handler.py` -/

/-- A tool invocation as the loop sees it (`tool_call.id`,
`tool_call.function.name`, `tool_call.function.arguments`). -/
structure ToolCall where
  id : String
  name : String
  arguments : String
deriving DecidableEq, Repr

/-- The `ToolResult` dataclass. -/
structure ToolResult where
  call_id : String
  name : String
  content : String
  success : Bool
deriving DecidableEq, Repr

/-- A parsed JSON object (`json.loads` output), modelled as string
key/value pairs. -/
abbrev Args := List (String × String)

/-- A Python value returned by a handler: either a `str` (used verbatim as
content) or any other object (used through `json.dumps`, whose serialised
text is carried in the constructor). Mirrors
`result if isinstance(result, str) else json.dumps(result)`. -/
inductive PyObj where
  | pyStr (s : String)
  | pyOther (dumped : String)
deriving DecidableEq, Repr

/-- A tool handler: parsed arguments to a result, raising (`Except.error`,
carrying `str(e)`) or returning a value. -/
def Handler := Args → Except String PyObj

/-- Model of `ToolRegistry.get_handler`: the registry dict modelled as the lookup
function it implements (`self._handlers.get(name)`). -/
def Registry := String → Option Handler

/-- Model of `json.dumps({"success": False, "error": e})` (inner escaping of `e` is
not modelled; no claim inspects it). -/
def dumpsFailure (e : String) : String :=
  "\x7b\"success\": false, \"error\": \"" ++ e ++ "\"\x7d"

/-- Model of `ToolHandler.execute_tool_call`: unknown tool → failed result; the
`try` block parses the arguments and calls the handler, and any raise
(parse failure included) becomes a failed result. `loads` is `json.loads`. -/
def execute_tool_call (loads : String → Except String Args) (reg : Registry)
    (tc : ToolCall) : ToolResult :=
  match reg tc.name with
  | none =>
    { call_id := tc.id, name := tc.name
      content := dumpsFailure ("Unknown tool: " ++ tc.name), success := false }
  | some handler =>
    match loads tc.arguments with
    | .error e =>
      { call_id := tc.id, name := tc.name, content := dumpsFailure e, success := false }
    | .ok args =>
      match handler args with
      | .error e =>
        { call_id := tc.id, name := tc.name, content := dumpsFailure e, success := false }
      | .ok (.pyStr s) =>
        { call_id := tc.id, name := tc.name, content := s, success := true }
      | .ok (.pyOther d) =>
        { call_id := tc.id, name := tc.name, content := d, success := true }

/-- The sort key of `execute_parallel`:
`tool_calls.index(next(tc for tc in tool_calls if tc.id == r.call_id))`,
i.e. the index of the first invocation whose id matches the result. -/
def sortKey (tool_calls : List ToolCall) (r : ToolResult) : ℕ :=
  tool_calls.findIdx (fun tc => tc.id == r.call_id)

/-- Model of `ToolHandler.execute_parallel`. The `ThreadPoolExecutor` +
`as_completed` collection is modelled by an arbitrary completion order
`completion` over the indices of the submitted calls (the theorems
quantify over every permutation); the final
`sorted(results, key=...)` is `List.mergeSort` by `sortKey` (Python's
`sorted` is a stable merge sort; all claims are settled at pairwise
distinct keys, where every sort by key agrees). -/
def execute_parallel (loads : String → Except String Args) (reg : Registry)
    (tool_calls : List ToolCall) (completion : List (Fin tool_calls.length)) :
    List ToolResult :=
  let results := completion.map (fun i => execute_tool_call loads reg (tool_calls.get i))
  results.mergeSort (fun a b => sortKey tool_calls a ≤ sortKey tool_calls b)

/-- Every branch of `execute_tool_call` echoes the invocation's id. -/
theorem execute_tool_call_call_id (loads : String → Except String Args)
    (reg : Registry) (tc : ToolCall) :
    (execute_tool_call loads reg tc).call_id = tc.id := by
  unfold execute_tool_call
  split
  · rfl
  · split
    · rfl
    · split <;> rfl

/-- In a batch whose ids are pairwise distinct, the sort key of the result
produced for the `i`-th invocation is `i` itself. -/
theorem findIdx_id_get {l : List ToolCall} (h : (l.map ToolCall.id).Nodup)
    (i : Fin l.length) :
    l.findIdx (fun tc => tc.id == (l.get i).id) = i := by
  induction l with
  | nil => exact absurd i.isLt (by simp)
  | cons a as ih =>
    rcases i with ⟨j, hj⟩
    rw [List.map_cons, List.nodup_cons] at h
    cases j with
    | zero => simp [List.findIdx_cons]
    | succ j =>
      have hjlt : j < as.length := by simpa using hj
      have hmem : (as.get ⟨j, hjlt⟩).id ∈ as.map ToolCall.id :=
        List.mem_map_of_mem ToolCall.id (as.get_mem _ _)
      have hne : ¬(a.id = (as.get ⟨j, hjlt⟩).id) := fun hEq => h.1 (hEq ▸ hmem)
      have := ih h.2 ⟨j, hjlt⟩
      simp only [List.findIdx_cons, List.get_cons_succ]
      have hbeq : (a.id == (as.get ⟨j, hjlt⟩).id) = false := beq_eq_false_iff_ne.mpr hne
      simp only [List.get_eq_getElem] at this hbeq
      simp [hbeq, this]

/-- The completion-order permutation composed with per-future execution is
a permutation of the input-order execution of the batch. -/
theorem results_perm_target (loads : String → Except String Args) (reg : Registry)
    (tool_calls : List ToolCall) (completion : List (Fin tool_calls.length))
    (hcomp : completion.Perm (List.finRange tool_calls.length)) :
    (completion.map (fun i => execute_tool_call loads reg (tool_calls.get i))).Perm
      (tool_calls.map (execute_tool_call loads reg)) := by
  have h1 := hcomp.map (fun i => execute_tool_call loads reg (tool_calls.get i))
  have h2 : (List.finRange tool_calls.length).map
      (fun i => execute_tool_call loads reg (tool_calls.get i)) =
      tool_calls.map (execute_tool_call loads reg) := by
    rw [show (fun i => execute_tool_call loads reg (tool_calls.get i)) =
        (execute_tool_call loads reg) ∘ tool_calls.get from rfl,
      ← List.map_map, List.finRange_map_get]
  rwa [h2] at h1

/-- Re-sorting the collected results by original index restores exactly the
input-order result list, whatever the completion order was. -/
theorem execute_parallel_eq_map (loads : String → Except String Args) (reg : Registry)
    (tool_calls : List ToolCall) (completion : List (Fin tool_calls.length))
    (hids : (tool_calls.map ToolCall.id).Nodup)
    (hcomp : completion.Perm (List.finRange tool_calls.length)) :
    execute_parallel loads reg tool_calls completion =
      tool_calls.map (execute_tool_call loads reg) := by
  classical
  set key := sortKey tool_calls with hkey
  set target := tool_calls.map (execute_tool_call loads reg) with htarget
  have hkey_at : ∀ i : Fin target.length, key (target.get i) = i := by
    intro ⟨i, hi⟩
    have hi' : i < tool_calls.length := by simpa [htarget] using hi
    have hget : target.get ⟨i, hi⟩ = execute_tool_call loads reg (tool_calls.get ⟨i, hi'⟩) := by
      simp [htarget]
    rw [hget, hkey]
    unfold sortKey
    rw [execute_tool_call_call_id]
    exact findIdx_id_get hids ⟨i, hi'⟩
  -- the input-order list is strictly sorted by key
  have htarget_sorted : target.Pairwise (fun a b => key a < key b) := by
    rw [List.pairwise_iff_get]
    intro i j hij
    rw [hkey_at i, hkey_at j]
    exact hij
  -- the dispatcher output is a permutation of the input-order list
  have hperm : (execute_parallel loads reg tool_calls completion).Perm target := by
    unfold execute_parallel
    exact (List.mergeSort_perm _ _).trans (results_perm_target loads reg _ _ hcomp)
  -- the dispatcher output is (weakly) sorted by key
  have hsorted_le : (execute_parallel loads reg tool_calls completion).Pairwise
      (fun a b => key a ≤ key b) := by
    have := @List.sorted_mergeSort ToolResult (fun a b => key a ≤ key b)
      (fun a b c hab hbc => by
        simp only [decide_eq_true_eq] at *; omega)
      (fun a b => by
        simp only [Bool.or_eq_true, decide_eq_true_eq]; omega)
      (completion.map (fun i => execute_tool_call loads reg (tool_calls.get i)))
    have h' := this.imp (fun h => by simpa using h)
    exact h'
  -- keys in the output are pairwise distinct
  have hnodup : (target.map key).Nodup := by
    have : (target.map key).Pairwise (· < ·) := List.pairwise_map.mpr htarget_sorted
    exact this.imp Nat.ne_of_lt
  have hnodup_out : ((execute_parallel loads reg tool_calls completion).map key).Nodup :=
    (hperm.map key).nodup_iff.mpr hnodup
  have hne_out : (execute_parallel loads reg tool_calls completion).Pairwise
      (fun a b => key a ≠ key b) := List.pairwise_map.mp hnodup_out
  have hsorted_lt : (execute_parallel loads reg tool_calls completion).Pairwise
      (fun a b => key a < key b) :=
    (hsorted_le.and hne_out).imp (fun h => lt_of_le_of_ne h.1 h.2)
  haveI : IsAntisymm ToolResult (fun a b => key a < key b) :=
    ⟨fun _ _ h1 h2 => absurd h2 (Nat.lt_asymm h1)⟩
  exact List.eq_of_perm_of_sorted hperm hsorted_lt htarget_sorted

/-- C1: for every batch with pairwise-distinct call ids and every
completion order of the concurrently executed handlers,
`execute_parallel` returns one result per invocation, in input order: the
result list has the input's length and its `call_id` column equals the
input's `id` column position by position. -/
theorem C1_execute_parallel_order (loads : String → Except String Args) (reg : Registry)
    (tool_calls : List ToolCall) (completion : List (Fin tool_calls.length))
    (hids : (tool_calls.map ToolCall.id).Nodup)
    (hcomp : completion.Perm (List.finRange tool_calls.length)) :
    (execute_parallel loads reg tool_calls completion).length = tool_calls.length ∧
    (execute_parallel loads reg tool_calls completion).map ToolResult.call_id =
      tool_calls.map ToolCall.id := by
  rw [execute_parallel_eq_map loads reg tool_calls completion hids hcomp]
  refine ⟨by simp, ?_⟩
  rw [List.map_map]
  exact List.map_congr_left (fun tc _ => execute_tool_call_call_id loads reg tc)

/-- A concrete `json.loads` stand-in for witnesses: the text "bad" fails to
parse, everything else parses to the empty object. -/
def loadsW : String → Except String Args :=
  fun s => if s = "bad" then Except.error "parse error" else Except.ok []

/-- A concrete registry for witnesses: one known tool whose handler always
raises. -/
def regW : Registry :=
  fun n => if n = "known" then some (fun _ => Except.error "boom") else none

/-- Witness for C1: a two-invocation batch with distinct ids, executed in
reversed completion order, still reports results in input order. -/
theorem C1_execute_parallel_order_witness :
    ([ToolCall.mk "a" "t" "x", ToolCall.mk "b" "t" "y"].map ToolCall.id).Nodup ∧
    (execute_parallel loadsW regW
        [ToolCall.mk "a" "t" "x", ToolCall.mk "b" "t" "y"]
        ([1, 0] : List (Fin 2))).map ToolResult.call_id =
      ["a", "b"] := by
  refine ⟨by decide, ?_⟩
  have h := C1_execute_parallel_order loadsW regW
    [ToolCall.mk "a" "t" "x", ToolCall.mk "b" "t" "y"] ([1, 0] : List (Fin 2))
    (by decide) (by decide)
  exact h.2.trans (by decide)

/-- C3: an unknown tool name, arguments that fail to parse, and a handler
that raises each produce a `success := false` `ToolResult` carrying the
error diagnostic — `execute_tool_call` is total, no exception escapes it —
and the batch still returns one result per invocation. -/
theorem C3_tool_failures_local (loads : String → Except String Args) (reg : Registry) :
    (∀ tc, reg tc.name = none →
      execute_tool_call loads reg tc =
        { call_id := tc.id, name := tc.name,
          content := dumpsFailure ("Unknown tool: " ++ tc.name), success := false }) ∧
    (∀ tc h e, reg tc.name = some h → loads tc.arguments = .error e →
      execute_tool_call loads reg tc =
        { call_id := tc.id, name := tc.name, content := dumpsFailure e, success := false }) ∧
    (∀ tc h args e, reg tc.name = some h → loads tc.arguments = .ok args →
      h args = .error e →
      execute_tool_call loads reg tc =
        { call_id := tc.id, name := tc.name, content := dumpsFailure e, success := false }) ∧
    (∀ (tool_calls : List ToolCall) (completion : List (Fin tool_calls.length)),
      completion.Perm (List.finRange tool_calls.length) →
      (execute_parallel loads reg tool_calls completion).length = tool_calls.length) := by
  refine ⟨?_, ?_, ?_, ?_⟩
  · intro tc h
    unfold execute_tool_call
    rw [h]
  · intro tc h e hsome herr
    unfold execute_tool_call
    rw [hsome, herr]
  · intro tc h args e hsome hok hraise
    simp only [execute_tool_call, hsome, hok, hraise]
  · intro tool_calls completion hperm
    have h1 : (execute_parallel loads reg tool_calls completion).length
        = completion.length := by
      unfold execute_parallel
      rw [(List.mergeSort_perm _ _).length_eq, List.length_map]
    rw [h1, hperm.length_eq, List.length_finRange]

/-- Witness for C3: all three failure shapes on a concrete registry, plus
the 3-result batch for the 3-invocation batch run in a scrambled
completion order. -/
theorem C3_tool_failures_local_witness :
    execute_tool_call loadsW regW (ToolCall.mk "1" "nope" "x") =
      { call_id := "1", name := "nope"
        content := dumpsFailure "Unknown tool: nope", success := false } ∧
    execute_tool_call loadsW regW (ToolCall.mk "2" "known" "bad") =
      { call_id := "2", name := "known"
        content := dumpsFailure "parse error", success := false } ∧
    execute_tool_call loadsW regW (ToolCall.mk "3" "known" "x") =
      { call_id := "3", name := "known"
        content := dumpsFailure "boom", success := false } ∧
    (execute_parallel loadsW regW
      [ToolCall.mk "1" "nope" "x", ToolCall.mk "2" "known" "bad", ToolCall.mk "3" "known" "x"]
      ([2, 0, 1] : List (Fin 3))).length = 3 := by
  have h := C3_tool_failures_local loadsW regW
  exact ⟨h.1 _ rfl, h.2.1 _ _ "parse error" rfl rfl, h.2.2.1 _ _ [] "boom" rfl rfl rfl,
    h.2.2.2
      [ToolCall.mk "1" "nope" "x", ToolCall.mk "2" "known" "bad", ToolCall.mk "3" "known" "x"]
      ([2, 0, 1] : List (Fin 3)) (by decide)⟩

/-! ### `src/ai/agentic_analyzer.py` — the agent loop

The Azure OpenAI call is an oracle `llm : List Message → Bool → ModelResponse`
(the `Bool` is whether the request carried the tool catalog:
`tools=tools` vs `tools=[]`).  Tool dispatch is the `ToolHandler`
collaborator `th` (embedded above as `execute_parallel`; the loop theorems
hold for every dispatcher).

Event emission is modelled faithfully to the object the analyzer holds:
line 104 constructs the *base* `EventEmitter` of
`src/utils/event_emitter.py`, whose only methods are `emit_progress`,
`emit_tool_call` and `emit_tool_result`.  The analyzer instead calls
`emit_start` (line 105), `emit_reading` (line 207, inside a
`try/except Exception: pass`), `emit_update` (line 232), `emit_complete`
(lines 191 and 239) and `emit_error` (lines 246 and 251) — methods that
exist only on the `RedisEventEmitter` subclass (modelled in the C6
section below), never on this object.  Each such call is embedded as an
attribute lookup (`emitterCall`) that raises `AttributeError`; only the
`emit_reading` call site swallows it.  Consequently every run aborts at
`emitter.emit_start()` before the first model request — the theorems
below prove exactly that. -/

/-- The extracted record.  The `ProductSnapshot` pydantic schema
(`src/schemas/product.py`) is pure data never inspected by the loop, so it
is carried opaquely. -/
structure ProductSnapshot where
  raw : String
deriving DecidableEq, Repr

/-- One chat message of the accumulated conversation history. -/
inductive Message where
  | system (content : String)
  | user (content : String)
  | assistant (tool_calls : List ToolCall)
  | tool (tool_call_id : String) (name : String) (content : String)
deriving DecidableEq, Repr

/-- A model turn: `response.choices[0].message.tool_calls` (empty list for
`None`) and `response.choices[0].message.parsed`. -/
structure ModelResponse where
  tool_calls : List ToolCall
  parsed : Option ProductSnapshot

/-- The kinds of events the analyzer's emit calls would produce; the
trace of a run records the successfully emitted ones.  (Since every emit
call on the base `EventEmitter` fails, all reachable traces are empty —
proved below — but the type keeps the success branches of the source
representable.) -/
inductive EventKind where
  | start
  | reading (url : String)
  | update (message : String)
  | complete
  | error (message : String)
deriving DecidableEq, Repr

/-- The methods the base `EventEmitter` class of
`src/utils/event_emitter.py` defines (transcribed from the class body). -/
def eventEmitterMethods : List String :=
  ["emit_progress", "emit_tool_call", "emit_tool_result"]

/-- The message of the `AttributeError` Python raises when a method is
looked up on the analyzer's emitter but not defined by its class. -/
def attributeError (method : String) : String :=
  "AttributeError: \x27EventEmitter\x27 object has no attribute \x27" ++ method ++ "\x27"

/-- A method call on the analyzer's emitter (the base `EventEmitter`
constructed at `agentic_analyzer.py:104`): the attribute lookup raises
`AttributeError` for every method the base class does not define. -/
def emitterCall (method : String) : Except String Unit :=
  if method ∈ eventEmitterMethods then .ok () else .error (attributeError method)

/-- `AGENTIC_SYSTEM_PROMPT`: the multi-page instruction text is
abbreviated to its opening sentence — no claim depends on the prompt
body, only on the fact (true of the full text as well) that it is not the
last message and does not contain the marker `[Iteration`. -/
def AGENTIC_SYSTEM_PROMPT : String :=
  "You are a product intelligence extractor. Extract structured product data from the web to populate a ProductSnapshot."

/-- The initial user message (same abbreviation note as for the system
prompt; the full source text does not contain `[Iteration` either). -/
def initialUserContent (initial_url : String) : String :=
  "TASK: Using the provided homepage URL, thoroughly explore the official website. CONTEXT: Official Homepage URL: " ++ initial_url

/-- The iteration-context suffix
`f"\n\n[Iteration {current}/{max} - {remaining} iterations remaining]"`. -/
def iterationContext (current maxIter : ℕ) : String :=
  "\n\n[Iteration " ++ toString current ++ "/" ++ toString maxIter ++ " - " ++
    toString (maxIter - current) ++ " iterations remaining]"

/-- `if messages[-1]["role"] == "user" and "[Iteration" not in
messages[-1]["content"]: messages[-1]["content"] += iteration_context`. -/
def appendIterationContext (messages : List Message) (current maxIter : ℕ) :
    List Message :=
  match messages.getLast? with
  | some (.user c) =>
    if containsSub c "[Iteration" then messages
    else messages.dropLast ++ [.user (c ++ iterationContext current maxIter)]
  | _ => messages

/-- The parse-and-check half of the per-invocation notification block
(`agentic_analyzer.py:202-206`): only a `fetch_web_content` invocation
whose arguments parse as JSON carrying a truthy `"url"` leads to an
`emitter.emit_reading(url)` attempt; a parse failure falls to the
block's `except: pass` and any other tool name is skipped. -/
def readingEventOf (loads : String → Except String Args) (tc : ToolCall) :
    Option EventKind :=
  if tc.name == "fetch_web_content" then
    match loads tc.arguments with
    | .ok args =>
      match args.lookup "url" with
      | some url => if url ≠ "" then some (.reading url) else none
      | none => none
    | .error _ => none
  else none

/-- One full notification attempt for a requested tool call
(`agentic_analyzer.py:202-209`): the parse and url check, then the
`emitter.emit_reading(url)` call — all inside
`try ... except Exception: pass`, so the `AttributeError` raised by the
missing method is swallowed and no event results. -/
def attemptReading (loads : String → Except String Args) (tc : ToolCall) :
    Option EventKind :=
  match readingEventOf loads tc with
  | some ev =>
    match emitterCall "emit_reading" with
    | .ok _ => some ev
    | .error _ => none
  | none => none

/-- `ToolHandler.build_tool_response_messages`: one `role="tool"` message
per result. -/
def build_tool_response_messages (results : List ToolResult) : List Message :=
  results.map (fun r => .tool r.call_id r.name r.content)

/-- The observable outcome of one run: the returned snapshot or the
raised exception's message (`RuntimeError` text or `AttributeError`
text), the successfully emitted event trace, every model request issued
(history, tools-enabled flag) in order, and every dispatched batch tagged
with the 1-based iteration that dispatched it. -/
structure LoopResult where
  outcome : Except String ProductSnapshot
  trace : List EventKind
  requests : List (List Message × Bool)
  batches : List (ℕ × List ToolCall)

/-- The `for iteration_num in range(max_iterations)` loop of
`extract_product_snapshot_agentic`, one constructor case per remaining
fuel (`fuel = maxIter - iteration_num`; `current` is
`iteration_num + 1`); `fuel = 0` is the loop's `else:` clause.  Every
emit call goes through `emitterCall` and raises `AttributeError` (the
`.ok` arms keep the source's success statements, unreachably); only the
`emit_reading` attempts are inside a `try/except: pass`
(`attemptReading`), so a tool iteration dispatches its batch and appends
the results, then aborts at `emitter.emit_update("Analyzing...")`. -/
def loopGo (llm : List Message → Bool → ModelResponse)
    (th : List ToolCall → List ToolResult)
    (loads : String → Except String Args) (maxIter : ℕ) :
    List Message → List EventKind → List (List Message × Bool) →
    List (ℕ × List ToolCall) → ℕ → ℕ → LoopResult
  | _msgs, trace, reqs, batches, _current, 0 =>
    -- for-else: `emitter.emit_error(f"Failed to extract after ...")` — itself
    -- an AttributeError — then `raise RuntimeError(...)`
    match emitterCall "emit_error" with
    | .error e =>
      { outcome := .error e, trace := trace, requests := reqs, batches := batches }
    | .ok () =>
      { outcome := .error ("Failed to generate product snapshot after " ++
          toString maxIter ++ " iterations")
        trace := trace ++ [.error ("Failed to extract after " ++ toString maxIter ++
          " iterations")]
        requests := reqs, batches := batches }
  | msgs, trace, reqs, batches, current, fuel + 1 =>
    let msgs1 := appendIterationContext msgs current maxIter
    let resp := llm msgs1 true
    let reqs1 := reqs ++ [(msgs1, true)]
    if resp.tool_calls.isEmpty then
      -- "No tool calls, we have final response"
      match resp.parsed with
      | some snapshot =>
        -- `emitter.emit_complete()` (line 239) then `return snapshot`
        match emitterCall "emit_complete" with
        | .error e =>
          { outcome := .error e, trace := trace, requests := reqs1, batches := batches }
        | .ok () =>
          { outcome := .ok snapshot, trace := trace ++ [.complete]
            requests := reqs1, batches := batches }
      | none =>
        -- `break`, then `emitter.emit_error(...)` (line 251) — itself an
        -- AttributeError — then the raise whose message keeps the source's
        -- unformatted braces (the f-prefix is missing there)
        match emitterCall "emit_error" with
        | .error e =>
          { outcome := .error e, trace := trace, requests := reqs1, batches := batches }
        | .ok () =>
          { outcome := .error "Failed to extract product snapshot after \x7bmax_iterations\x7d iterations"
            trace := trace ++ [.error "Failed to extract product snapshot - parsed response was None"]
            requests := reqs1, batches := batches }
    else
      if current == maxIter then
        -- forced final: re-ask with `tools=[]` on the same history
        let completion := llm msgs1 false
        let reqs2 := reqs1 ++ [(msgs1, false)]
        match completion.parsed with
        | some snapshot =>
          -- `emitter.emit_complete()` (line 191) then `return snapshot`
          match emitterCall "emit_complete" with
          | .error e =>
            { outcome := .error e, trace := trace, requests := reqs2, batches := batches }
          | .ok () =>
            { outcome := .ok snapshot, trace := trace ++ [.complete]
              requests := reqs2, batches := batches }
        | none =>
          -- plain `raise RuntimeError(...)`: no emit call on this path
          { outcome := .error "Failed to extract product snapshot at max iterations"
            trace := trace, requests := reqs2, batches := batches }
      else
        let tcs := resp.tool_calls
        let readings := tcs.filterMap (attemptReading loads)
        let msgs2 := msgs1 ++ [.assistant tcs]
        let results := th tcs
        let msgs3 := msgs2 ++ build_tool_response_messages results
        let batches1 := batches ++ [(current, tcs)]
        -- `emitter.emit_update("Analyzing...")` (line 232): the AttributeError
        -- is not caught — it aborts the run after the batch was dispatched
        -- and its results appended
        match emitterCall "emit_update" with
        | .error e =>
          { outcome := .error e, trace := trace ++ readings
            requests := reqs1, batches := batches1 }
        | .ok () =>
          loopGo llm th loads maxIter msgs3
            (trace ++ readings ++ [.update "Analyzing..."])
            reqs1 batches1 (current + 1) fuel

/-- `extract_product_snapshot_agentic` from its first statements,
parameterized by the iteration budget (the source fixes
`max_iterations = 10`): construct the base `EventEmitter`
(`agentic_analyzer.py:104`), call `emitter.emit_start()` (line 105) —
which raises `AttributeError`, aborting the run before the first model
request — and only then (unreachably, with the start event emitted) run
the iteration loop. -/
def analyzerRun (llm : List Message → Bool → ModelResponse)
    (th : List ToolCall → List ToolResult)
    (loads : String → Except String Args) (budget : ℕ) (initial_url : String) :
    LoopResult :=
  match emitterCall "emit_start" with
  | .error e =>
    { outcome := .error e, trace := [], requests := [], batches := [] }
  | .ok () =>
    loopGo llm th loads budget
      [.system AGENTIC_SYSTEM_PROMPT, .user (initialUserContent initial_url)]
      [.start] [] [] 1 budget

/-- `extract_product_snapshot_agentic`: the source fixes
`max_iterations = 10`. -/
def extract_product_snapshot_agentic (llm : List Message → Bool → ModelResponse)
    (th : List ToolCall → List ToolResult)
    (loads : String → Except String Args) (initial_url : String) : LoopResult :=
  analyzerRun llm th loads 10 initial_url

/-- The emitter methods the analyzer calls are all missing from the base
class the analyzer instantiates. -/
theorem emitterCall_emit_start :
    emitterCall "emit_start" = .error (attributeError "emit_start") := rfl

/-- Missing `emit_reading` (its call site swallows the error). -/
theorem emitterCall_emit_reading :
    emitterCall "emit_reading" = .error (attributeError "emit_reading") := rfl

/-- Missing `emit_update`. -/
theorem emitterCall_emit_update :
    emitterCall "emit_update" = .error (attributeError "emit_update") := rfl

/-- Missing `emit_complete`. -/
theorem emitterCall_emit_complete :
    emitterCall "emit_complete" = .error (attributeError "emit_complete") := rfl

/-- Missing `emit_error`. -/
theorem emitterCall_emit_error :
    emitterCall "emit_error" = .error (attributeError "emit_error") := rfl

/-- Every run of the analyzer aborts at `emitter.emit_start()`: no model
request is issued, no event emitted, no batch dispatched. -/
theorem analyzerRun_crash (llm : List Message → Bool → ModelResponse)
    (th : List ToolCall → List ToolResult)
    (loads : String → Except String Args) (budget : ℕ) (url : String) :
    analyzerRun llm th loads budget url =
      { outcome := .error (attributeError "emit_start"), trace := []
        requests := [], batches := [] } := rfl

/-- Every per-invocation notification attempt collapses to nothing: the
`emitter.emit_reading` call raises `AttributeError` inside the block's
`try/except Exception: pass`. -/
theorem attemptReading_none (loads : String → Except String Args) (tc : ToolCall) :
    attemptReading loads tc = none := by
  cases h : readingEventOf loads tc <;>
    simp [attemptReading, h, emitterCall_emit_reading]

/-- C2: every run of `extract_product_snapshot_agentic` issues at most 10
model turns in total and the budget-th turn never results in a tool
dispatch.  The claim holds, but vacuously: every run raises
`AttributeError` at `emitter.emit_start()` (the base `EventEmitter` has
no such method) before the first model request, so no run issues any
model turn or dispatches any batch at all — the first two conjuncts are
the exact zero counts, the last two the claimed bounds. -/
theorem C2_turn_budget (llm : List Message → Bool → ModelResponse)
    (th : List ToolCall → List ToolResult)
    (loads : String → Except String Args) (url : String) :
    (extract_product_snapshot_agentic llm th loads url).requests = [] ∧
    (extract_product_snapshot_agentic llm th loads url).batches = [] ∧
    (extract_product_snapshot_agentic llm th loads url).requests.length ≤ 10 ∧
    (extract_product_snapshot_agentic llm th loads url).outcome =
      .error (attributeError "emit_start") := by
  simp only [extract_product_snapshot_agentic]
  rw [analyzerRun_crash]
  exact ⟨rfl, rfl, by simp, rfl⟩

/-- A concrete `search_web` invocation for concrete runs. -/
def tcSearchW : ToolCall :=
  ToolCall.mk "call-1" "search_web" "\x7b\"query\": \"x\"\x7d"

/-- A model oracle that requests a tool on every turn and never parses. -/
def llmAllTools : List Message → Bool → ModelResponse :=
  fun _ _ => { tool_calls := [tcSearchW], parsed := none }

/-- A model oracle that requests a tool whenever tools are offered and
parses a snapshot on a tool-less request — the shape that exercises the
forced-final success path. -/
def llmToolsThenParse : List Message → Bool → ModelResponse :=
  fun _ toolsEnabled =>
    if toolsEnabled then { tool_calls := [tcSearchW], parsed := none }
    else { tool_calls := [], parsed := some ⟨"snap"⟩ }

/-- A dispatcher for concrete runs: one successful result per call. -/
def thW : List ToolCall → List ToolResult :=
  fun tcs => tcs.map (fun tc =>
    { call_id := tc.id, name := tc.name, content := "ok", success := true })

/-- C4: (a) no run ever reaches the budget-th iteration — every run of
`extract_product_snapshot_agentic` raises `AttributeError` at
`emitter.emit_start()` with no model request issued; (b) the loop's
budget-th iteration itself (`current = maxIter`, one fuel unit left),
when the model still requests tools, does discard the calls without
dispatching and re-issues a tool-less request on the identical history,
and an unparseable forced answer raises the claimed `RuntimeError` — but
a parseable one makes the source call `emitter.emit_complete()`
(`agentic_analyzer.py:191`), which raises `AttributeError` on the base
`EventEmitter` instead of emitting `complete` and returning the
snapshot, contradicting the claim (and the code's own
`return snapshot`). -/
theorem C4_forced_final_code_bug :
    (∀ (llm : List Message → Bool → ModelResponse)
       (th : List ToolCall → List ToolResult)
       (loads : String → Except String Args) (url : String),
      extract_product_snapshot_agentic llm th loads url =
        { outcome := .error (attributeError "emit_start"), trace := []
          requests := [], batches := [] }) ∧
    (∀ (llm : List Message → Bool → ModelResponse)
       (th : List ToolCall → List ToolResult)
       (loads : String → Except String Args) (maxIter : ℕ)
       (msgs : List Message) (trace : List EventKind)
       (reqs : List (List Message × Bool)) (batches : List (ℕ × List ToolCall)),
      (llm (appendIterationContext msgs maxIter maxIter) true).tool_calls ≠ [] →
      (loopGo llm th loads maxIter msgs trace reqs batches maxIter 1).batches = batches ∧
      (loopGo llm th loads maxIter msgs trace reqs batches maxIter 1).requests =
        reqs ++ [(appendIterationContext msgs maxIter maxIter, true),
          (appendIterationContext msgs maxIter maxIter, false)] ∧
      (∀ s, (llm (appendIterationContext msgs maxIter maxIter) false).parsed = some s →
        (loopGo llm th loads maxIter msgs trace reqs batches maxIter 1).outcome =
          .error (attributeError "emit_complete") ∧
        (loopGo llm th loads maxIter msgs trace reqs batches maxIter 1).trace = trace) ∧
      ((llm (appendIterationContext msgs maxIter maxIter) false).parsed = none →
        (loopGo llm th loads maxIter msgs trace reqs batches maxIter 1).outcome =
          .error "Failed to extract product snapshot at max iterations" ∧
        (loopGo llm th loads maxIter msgs trace reqs batches maxIter 1).trace = trace)) := by
  constructor
  · intro llm th loads url
    exact analyzerRun_crash llm th loads 10 url
  · intro llm th loads maxIter msgs trace reqs batches H
    have hne : (llm (appendIterationContext msgs maxIter maxIter) true).tool_calls.isEmpty
        = false := by
      rcases h : (llm (appendIterationContext msgs maxIter maxIter) true).tool_calls with
        _ | ⟨a, l⟩
      · exact absurd h H
      · rfl
    refine ⟨?_, ?_, ?_, ?_⟩
    · cases hp : (llm (appendIterationContext msgs maxIter maxIter) false).parsed <;>
        simp [loopGo, hne, hp, emitterCall_emit_complete]
    · cases hp : (llm (appendIterationContext msgs maxIter maxIter) false).parsed <;>
        simp [loopGo, hne, hp, emitterCall_emit_complete]
    · intro s hp
      constructor <;> simp [loopGo, hne, hp, emitterCall_emit_complete]
    · intro hp
      constructor <;> simp [loopGo, hne, hp]

/-- Witness for C4 at a concrete one-iteration budget: the forced-final
success-shaped oracle aborts with the `emit_complete` AttributeError, and
the never-parsing oracle raises the claimed RuntimeError. -/
theorem C4_forced_final_code_bug_witness :
    (loopGo llmToolsThenParse thW loadsW 1 [Message.user "u"] [] [] [] 1 1).outcome =
      .error (attributeError "emit_complete") ∧
    (loopGo llmAllTools thW loadsW 1 [Message.user "u"] [] [] [] 1 1).outcome =
      .error "Failed to extract product snapshot at max iterations" := by
  constructor
  · exact ((C4_forced_final_code_bug.2 llmToolsThenParse thW loadsW 1
      [Message.user "u"] [] [] [] (by decide)).2.2.1 ⟨"snap"⟩ rfl).1
  · exact ((C4_forced_final_code_bug.2 llmAllTools thW loadsW 1
      [Message.user "u"] [] [] [] (by decide)).2.2.2 rfl).1

/-- Concrete `fetch_web_content` invocations and a loads oracle giving
their urls, for the C7 scenario input. -/
def tcFetchA : ToolCall := ToolCall.mk "f1" "fetch_web_content" "argsA"

/-- Second fetch invocation of the C7 scenario input. -/
def tcFetchB : ToolCall := ToolCall.mk "f2" "fetch_web_content" "argsB"

/-- A `json.loads` oracle for the C7 scenario arguments. -/
def loadsScen : String → Except String Args :=
  fun s =>
    if s = "argsA" then Except.ok [("url", "https://a.example/")]
    else if s = "argsB" then Except.ok [("url", "https://b.example/")]
    else Except.ok []

/-- The C7 scenario model: a fetch call on each of the first two turns
(history lengths 2 and 4), then a direct parsed answer. -/
def llmScen : List Message → Bool → ModelResponse :=
  fun m _ =>
    if m.length ≤ 2 then { tool_calls := [tcFetchA], parsed := none }
    else if m.length ≤ 4 then { tool_calls := [tcFetchB], parsed := none }
    else { tool_calls := [], parsed := some ⟨"snap"⟩ }

/-- C7 counterexample: at the claim's budget-3 scenario input — fetch
invocations on turns 1 and 2, a direct parsed answer on turn 3 — the
source dispatches no batch at all (not 2) and emits no event whatsoever
(not `start, tool_call, progress, tool_call, progress, complete`): the
run aborts with `AttributeError` at `emitter.emit_start()` before the
first model request. -/
theorem C7_counterexample :
    (analyzerRun llmScen thW loadsScen 3 "https://a.example/").batches = [] ∧
    ¬((analyzerRun llmScen thW loadsScen 3 "https://a.example/").batches.length = 2) ∧
    (analyzerRun llmScen thW loadsScen 3 "https://a.example/").trace = [] ∧
    (analyzerRun llmScen thW loadsScen 3 "https://a.example/").outcome =
      .error (attributeError "emit_start") := by
  rw [analyzerRun_crash]
  exact ⟨rfl, by simp, rfl, rfl⟩

/-- C7 (amended): no run of the analyzer emits any event or dispatches
any batch — every run, for any budget and model behavior, aborts with
`AttributeError` at `emitter.emit_start()` before the first model request
(first conjunct).  Inside the loop body (were it ever reached): every
per-invocation reading attempt is swallowed into nothing, because the
`emitter.emit_reading` call raises on the base `EventEmitter` and its
block catches all exceptions (second conjunct); and a non-final iteration
whose model turn requests tools dispatches its batch and appends the
results, then aborts with `AttributeError` at
`emitter.emit_update("Analyzing...")`, emitting no event (third
conjunct). -/
theorem C7_no_event_notifications :
    (∀ (llm : List Message → Bool → ModelResponse)
       (th : List ToolCall → List ToolResult)
       (loads : String → Except String Args) (budget : ℕ) (url : String),
      analyzerRun llm th loads budget url =
        { outcome := .error (attributeError "emit_start"), trace := []
          requests := [], batches := [] }) ∧
    (∀ (loads : String → Except String Args) (tc : ToolCall),
      attemptReading loads tc = none) ∧
    (∀ (llm : List Message → Bool → ModelResponse)
       (th : List ToolCall → List ToolResult)
       (loads : String → Except String Args) (maxIter : ℕ)
       (msgs : List Message) (trace : List EventKind)
       (reqs : List (List Message × Bool)) (batches : List (ℕ × List ToolCall))
       (current fuel : ℕ),
      (llm (appendIterationContext msgs current maxIter) true).tool_calls ≠ [] →
      current ≠ maxIter →
      loopGo llm th loads maxIter msgs trace reqs batches current (fuel + 1) =
        { outcome := .error (attributeError "emit_update")
          trace := trace
          requests := reqs ++ [(appendIterationContext msgs current maxIter, true)]
          batches := batches ++
            [(current,
              (llm (appendIterationContext msgs current maxIter) true).tool_calls)] }) := by
  refine ⟨fun llm th loads budget url => analyzerRun_crash llm th loads budget url,
    fun loads tc => attemptReading_none loads tc, ?_⟩
  intro llm th loads maxIter msgs trace reqs batches current fuel H hcur
  have hne : (llm (appendIterationContext msgs current maxIter) true).tool_calls.isEmpty
      = false := by
    rcases h : (llm (appendIterationContext msgs current maxIter) true).tool_calls with
      _ | ⟨a, l⟩
    · exact absurd h H
    · rfl
  have hbeq : (current == maxIter) = false := by simpa using hcur
  have hreads : (llm (appendIterationContext msgs current maxIter) true).tool_calls.filterMap
      (attemptReading loads) = [] :=
    List.filterMap_eq_nil_iff.mpr (fun tc _ => attemptReading_none loads tc)
  simp [loopGo, hne, hbeq, hreads, emitterCall_emit_update]

/-- Witness for the amended C7: one tool iteration from a concrete
non-final state halts at the `emit_update` AttributeError with its batch
recorded and nothing emitted. -/
theorem C7_no_event_notifications_witness :
    loopGo llmScen thW loadsScen 3 [Message.user "u"] [] [] [] 1 3 =
      { outcome := .error (attributeError "emit_update")
        trace := []
        requests := [(appendIterationContext [Message.user "u"] 1 3, true)]
        batches :=
          [(1, (llmScen (appendIterationContext [Message.user "u"] 1 3) true).tool_calls)] } := by
  have h := C7_no_event_notifications.2.2 llmScen thW loadsScen 3
    [Message.user "u"] [] [] [] 1 2 (by decide) (by decide)
  simpa using h

/-! ### `src/utils/redis_event_emitter.py` — persistence and emits -/

/-- One failure scenario of the underlying Redis store for a single
`_persist_event` call: whether the `rpush` raises, and whether the
`expire` raises (reached only when `rpush` did not). -/
structure RedisFailure where
  rpushFails : Bool
  expireFails : Bool

/-- The events the emitter persists (each entry stands for its
`model_dump_json()` text).  `StartEvent`, `UpdateEvent` and
`ReadingEvent` are not defined in `src/schemas/events.py` even though
`src/utils/redis_event_emitter.py` imports and constructs them and
`tests/test_redis_event_emitter.py` asserts their kinds; their shapes
here are modelled from those construction sites and tests
(`StartEvent(message=...)`, `UpdateEvent(message=...)`,
`ReadingEvent(url=..., message=...)`) — the gap itself is recorded by
`C6_emit_never_raises_code_bug`. -/
inductive EmittedEvent where
  | startEv (message : String)
  | updateEv (message : String)
  | readingEv (url : String) (message : String)
  | completeEv (message : String) (data : List (String × String))
  | errorEv (message : String) (error : String)
deriving DecidableEq, Repr

/-- The emitter's per-job persistent state: the Redis list at
`job:{job_id}:events` and the `event_count` counter. -/
structure EmitterState where
  log : List EmittedEvent
  event_count : ℕ
deriving DecidableEq, Repr

/-- The `try` block of `_persist_event`: `rpush`, then `expire`, then
`self.event_count += 1`.  Returns the state as left by whichever prefix
of the block executed, together with the block's outcome
(`Except.error` = the exception the `except` clause catches). -/
def persistEventTry (f : RedisFailure) (st : EmitterState) (e : EmittedEvent) :
    EmitterState × Except String Unit :=
  if f.rpushFails then (st, .error "redis: rpush failed")
  else if f.expireFails then
    ({ st with log := st.log ++ [e] }, .error "redis: expire failed")
  else ({ log := st.log ++ [e], event_count := st.event_count + 1 }, .ok ())

/-- `_persist_event`: the `except Exception` clause logs and swallows the
failure, keeping whatever state the `try` block reached. -/
def persist_event (f : RedisFailure) (st : EmitterState) (e : EmittedEvent) :
    EmitterState :=
  (persistEventTry f st e).1

/-- `emit_start` under Python exception semantics: the `Except` layer is
`.error` exactly when an exception escapes the method body.  The Redis
operations — the failures claim C6 quantifies over — all sit inside
`_persist_event`'s `try`, so the body runs to the end for every failure
oracle.  The returned list holds the event handed to the SSE `callback`
(when one is attached). -/
def emit_start (f : RedisFailure) (st : EmitterState) (hasCallback : Bool) :
    Except String (EmitterState × List EmittedEvent) :=
  let event := EmittedEvent.startEv "Checking out your website"
  let st1 := persist_event f st event
  .ok (st1, if hasCallback then [event] else [])

/-- `emit_update`. -/
def emit_update (f : RedisFailure) (st : EmitterState) (hasCallback : Bool)
    (message : String) : Except String (EmitterState × List EmittedEvent) :=
  let event := EmittedEvent.updateEv message
  let st1 := persist_event f st event
  .ok (st1, if hasCallback then [event] else [])

/-- `emit_reading`. -/
def emit_reading (f : RedisFailure) (st : EmitterState) (hasCallback : Bool)
    (url : String) : Except String (EmitterState × List EmittedEvent) :=
  let event := EmittedEvent.readingEv url ("Reading " ++ url)
  let st1 := persist_event f st event
  .ok (st1, if hasCallback then [event] else [])

/-- `emit_complete` (defaults:
`message = "All done! Your product information is ready"`, `data or {}`). -/
def emit_complete (f : RedisFailure) (st : EmitterState) (hasCallback : Bool)
    (message : String) (data : Option (List (String × String))) :
    Except String (EmitterState × List EmittedEvent) :=
  let event := EmittedEvent.completeEv message (data.getD [])
  let st1 := persist_event f st event
  .ok (st1, if hasCallback then [event] else [])

/-- `emit_error`. -/
def emit_error (f : RedisFailure) (st : EmitterState) (hasCallback : Bool)
    (message : String) (error : String) :
    Except String (EmitterState × List EmittedEvent) :=
  let event := EmittedEvent.errorEv message error
  let st1 := persist_event f st event
  .ok (st1, if hasCallback then [event] else [])

/-- `emit_event` (the generic passthrough used as the job callback). -/
def emit_event (f : RedisFailure) (st : EmitterState) (hasCallback : Bool)
    (event : EmittedEvent) : Except String (EmitterState × List EmittedEvent) :=
  let st1 := persist_event f st event
  .ok (st1, if hasCallback then [event] else [])

/-- The replay section of `stream_job_events`: `for idx, event_json in
enumerate(events_json_list)` yields each entry with its position as the
SSE id. -/
def replayFromZero (log : List EmittedEvent) : List (ℕ × EmittedEvent) :=
  log.enum

/-- A single `_persist_event` call never rewrites the log: it appends one
entry, or — when the `rpush` raised — leaves the log unchanged. -/
theorem persist_event_log_extends (f : RedisFailure) (st : EmitterState)
    (e : EmittedEvent) :
    (persist_event f st e).log = st.log ∨
    (persist_event f st e).log = st.log ++ [e] := by
  unfold persist_event persistEventTry
  rcases f with ⟨_ | _, _ | _⟩ <;> simp

/-- C5: persistence is append-only — any run of `_persist_event` calls
only extends a job's log — and full replay from offset 0 carries SSE ids
exactly `0..N-1` over the entries in append order, so two full replays
taken before and after further persistence agree on the common prefix
(the earlier replay is a prefix of the later one). -/
theorem C5_append_only_replay (ops : List (RedisFailure × EmittedEvent))
    (st : EmitterState) :
    (st.log <+: (ops.foldl (fun s p => persist_event p.1 s p.2) st).log) ∧
    (∀ log : List EmittedEvent,
      (replayFromZero log).map Prod.fst = List.range log.length ∧
      (replayFromZero log).map Prod.snd = log) ∧
    (replayFromZero st.log <+:
      replayFromZero (ops.foldl (fun s p => persist_event p.1 s p.2) st).log) := by
  have hext : ∀ (ops : List (RedisFailure × EmittedEvent)) (st : EmitterState),
      st.log <+: (ops.foldl (fun s p => persist_event p.1 s p.2) st).log := by
    intro ops
    induction ops with
    | nil => intro st; exact List.prefix_rfl
    | cons op rest ih =>
      intro st
      have h1 : st.log <+: (persist_event op.1 st op.2).log := by
        rcases persist_event_log_extends op.1 st op.2 with h | h
        · rw [h]
        · rw [h]; exact ⟨[op.2], rfl⟩
      exact h1.trans (ih (persist_event op.1 st op.2))
  refine ⟨hext ops st, fun log => ⟨List.enum_map_fst log, List.enum_map_snd log⟩, ?_⟩
  rcases hext ops st with ⟨t, ht⟩
  refine ⟨(t.enumFrom st.log.length).map (fun p => (p.1, p.2)), ?_⟩
  unfold replayFromZero
  rw [← ht, List.enum_append]
  simp

/-! ### `src/api.py` — the `/jobs/{job_id}/stream` generator -/

/-- One item yielded by the SSE generator: the synthetic waiting
notification, an id-tagged event record, or an error payload. -/
inductive StreamItem where
  | waiting
  | eventItem (id : ℕ) (json : String)
  | errorItem (message : String) (error : String)
deriving DecidableEq, Repr

/-- The RQ job as the endpoint reads it after `RQJob.fetch`. -/
structure RQJobView where
  is_finished : Bool
  is_failed : Bool
  exc_info : Option String

/-- The polling loop of the still-running branch: `logAt t` is the full
Redis list at poll tick `t` (1-based), `doneAt t` the
`is_finished or is_failed` answer of the `refresh()` at tick `t` (checked
only when `t % 10 == 0`); `max_polls = 6000` is the fuel.  Returns the
yielded items and the final `last_position`. -/
def pollGo (logAt : ℕ → List String) (doneAt : ℕ → Bool) :
    ℕ → ℕ → ℕ → List StreamItem × ℕ
  | lastPos, _pollCount, 0 => ([], lastPos)
  | lastPos, pollCount, fuel + 1 =>
    let pc := pollCount + 1
    let newEvents := (logAt pc).drop lastPos
    let items := newEvents.enum.map (fun p => StreamItem.eventItem (lastPos + p.1) p.2)
    let lastPos1 := lastPos + newEvents.length
    if pc % 10 == 0 && doneAt pc then (items, lastPos1)
    else
      let rest := pollGo logAt doneAt lastPos1 pc fuel
      (items ++ rest.1, rest.2)

/-- The generator of `stream_job_events`.  `log1` is the first `lrange`
read; `log2` the re-read after the 1-second sleep taken when the first
was empty (with the synthetic waiting notification in between); `rqFetch`
the result of `RQJob.fetch` (`.error` = the fetch raised);
`logAt`/`doneAt` drive the polling branch and `logFinal` is the final
`lrange` after the poll loop.  The enclosing `except` (a redis read
itself failing) is outside these claims' scope and is not modelled. -/
def stream_job_events (log1 log2 : List String)
    (rqFetch : Except String RQJobView)
    (logAt : ℕ → List String) (doneAt : ℕ → Bool) (logFinal : List String) :
    List StreamItem :=
  let (preWait, events_json_list) :=
    if log1.isEmpty then ([StreamItem.waiting], log2) else ([], log1)
  let replayItems := events_json_list.enum.map
    (fun p => StreamItem.eventItem p.1 p.2)
  match rqFetch with
  | .error _ =>
    -- "Job not found in RQ" — both arms of the except clause return
    preWait ++ replayItems
  | .ok job =>
    if job.is_finished then preWait ++ replayItems
    else if job.is_failed then
      preWait ++ replayItems ++
        [.errorItem "Job failed" (job.exc_info.getD "Unknown error")]
    else
      let res := pollGo logAt doneAt events_json_list.length 0 6000
      let finalItems := (logFinal.drop res.2).enum.map
        (fun p => StreamItem.eventItem (res.2 + p.1) p.2)
      preWait ++ replayItems ++ res.1 ++ finalItems

/-- C8: a consumer connecting to a job id with no persisted events (both
reads empty) and no RQ record (the fetch raises) receives exactly the one
synthetic waiting notification — no event items and no error item — and
the generator returns, closing the stream gracefully. -/
theorem C8_unknown_job_waiting (e : String) (logAt : ℕ → List String)
    (doneAt : ℕ → Bool) (logFinal : List String) :
    stream_job_events [] [] (.error e) logAt doneAt logFinal =
      [StreamItem.waiting] := by
  rfl

/-- The event classes `src/schemas/events.py` actually defines
(transcribed from the module). -/
def eventsModuleClasses : List String :=
  ["ToolCallEvent", "ToolResultEvent", "ProgressEvent", "CompleteEvent", "ErrorEvent"]

/-- The event classes `src/utils/redis_event_emitter.py` (line 10)
imports from `..schemas.events` and constructs inside `emit_start`,
`emit_update` and `emit_reading`. -/
def redisEmitterImportedClasses : List String :=
  ["StartEvent", "ReadingEvent", "UpdateEvent", "CompleteEvent", "ErrorEvent"]

/-- C6: the swallowing itself is real and works — a Redis failure is an
exception inside `_persist_event`'s `try` (second conjunct), and every
emit operation returns normally for every failure oracle (third
conjunct) — but the code cannot deliver it: the emitter imports
`StartEvent`, `ReadingEvent` and `UpdateEvent` from `src/schemas/events.py`,
which defines none of them (first conjunct), so importing the module —
and hence any emit call — raises before any Redis failure can be
swallowed.  The intended event shapes are modelled from the emitter's
construction sites and its tests. -/
theorem C6_emit_never_raises_code_bug :
    (("StartEvent" ∈ redisEmitterImportedClasses ∧
        "StartEvent" ∉ eventsModuleClasses) ∧
      ("ReadingEvent" ∈ redisEmitterImportedClasses ∧
        "ReadingEvent" ∉ eventsModuleClasses) ∧
      ("UpdateEvent" ∈ redisEmitterImportedClasses ∧
        "UpdateEvent" ∉ eventsModuleClasses)) ∧
    (persistEventTry ⟨true, false⟩ ⟨[], 0⟩ (.startEv "m")).2 =
      .error "redis: rpush failed" ∧
    (∀ (f : RedisFailure) (st : EmitterState) (hc : Bool) (msg url err : String)
       (data : Option (List (String × String))) (ev : EmittedEvent),
      (∃ r, emit_start f st hc = .ok r) ∧
      (∃ r, emit_update f st hc msg = .ok r) ∧
      (∃ r, emit_reading f st hc url = .ok r) ∧
      (∃ r, emit_complete f st hc msg data = .ok r) ∧
      (∃ r, emit_error f st hc msg err = .ok r) ∧
      (∃ r, emit_event f st hc ev = .ok r)) := by
  refine ⟨by decide, rfl, ?_⟩
  intro f st hc msg url err data ev
  exact ⟨⟨_, rfl⟩, ⟨_, rfl⟩, ⟨_, rfl⟩, ⟨_, rfl⟩, ⟨_, rfl⟩, ⟨_, rfl⟩⟩

/-! ### `src/ai/tools/search.py` — `search_web` -/

/-- A Python value passed as `max_results`: an `int` (Python `bool`s are
`int`s under `isinstance`) or any non-int value. -/
inductive PyParam where
  | int (n : ℤ)
  | nonInt
deriving DecidableEq, Repr

/-- The Tavily response dict, carried opaquely (the success-JSON
formatting of `search_web` is never inspected by the claims). -/
structure TavResp where
  raw : String
deriving DecidableEq, Repr

/-- The value `search_web` returns: the failure JSON
`{"success": false, "error": ...}` or the formatted success JSON. -/
inductive SearchWebResult where
  | failure (error : String)
  | success (resp : TavResp)
deriving DecidableEq, Repr

/-- The `max_results` normalisation of `search_web`:
`if not isinstance(max_results, int) or max_results < 1: 5
elif max_results > 10: 10`. -/
def clampMaxResults : PyParam → ℤ
  | .nonInt => 5
  | .int n => if n < 1 then 5 else if n > 10 then 10 else n

/-- `search_web`.  `client` is the shared Tavily client's `search`
(`.error` = a raised exception, caught by the function's `try`); the
second component records the call made to the client, if any, as
`(query, max_results)`. -/
def search_web (client : String → ℤ → Except String TavResp)
    (query : String) (max_results : PyParam) :
    SearchWebResult × Option (String × ℤ) :=
  if query = "" ∨ pyStrip query = "" then
    (.failure "Search query cannot be empty", none)
  else if query.length > 400 then
    (.failure "Search query must be less than 400 characters", none)
  else
    let mr := clampMaxResults max_results
    match client query mr with
    | .ok resp => (.success resp, some (query, mr))
    | .error e => (.failure e, some (query, mr))

/-- C9: an empty or whitespace-only query, or one longer than 400
characters, returns a JSON failure without any client call; otherwise the
client is invoked with exactly the clamped `max_results`, which always
lies in `1..10` — non-ints and ints below 1 become 5, ints above 10
become 10. -/
theorem C9_search_web_validation (client : String → ℤ → Except String TavResp)
    (query : String) (max_results : PyParam) :
    (query = "" ∨ pyStrip query = "" →
      search_web client query max_results =
        (.failure "Search query cannot be empty", none)) ∧
    (¬(query = "" ∨ pyStrip query = "") → query.length > 400 →
      search_web client query max_results =
        (.failure "Search query must be less than 400 characters", none)) ∧
    (∀ q mr, (search_web client query max_results).2 = some (q, mr) →
      q = query ∧ mr = clampMaxResults max_results ∧ 1 ≤ mr ∧ mr ≤ 10) ∧
    (∀ n, max_results = .int n → n < 1 → clampMaxResults max_results = 5) ∧
    (max_results = .nonInt → clampMaxResults max_results = 5) ∧
    (∀ n, max_results = .int n → n > 10 → clampMaxResults max_results = 10) := by
  have hclamp : 1 ≤ clampMaxResults max_results ∧ clampMaxResults max_results ≤ 10 := by
    rcases max_results with n | _
    · simp only [clampMaxResults]
      split
      · omega
      · split <;> omega
    · simp only [clampMaxResults]; omega
  refine ⟨?_, ?_, ?_, ?_, ?_, ?_⟩
  · intro h; unfold search_web; rw [if_pos h]
  · intro h1 h2
    unfold search_web
    rw [if_neg h1, if_pos h2]
  · intro q mr hcall
    unfold search_web at hcall
    by_cases h1 : query = "" ∨ pyStrip query = ""
    · rw [if_pos h1] at hcall; exact absurd hcall (by simp)
    · rw [if_neg h1] at hcall
      by_cases h2 : query.length > 400
      · rw [if_pos h2] at hcall; exact absurd hcall (by simp)
      · rw [if_neg h2] at hcall
        have hcall1 :
            (match client query (clampMaxResults max_results) with
              | Except.ok resp =>
                (SearchWebResult.success resp, some (query, clampMaxResults max_results))
              | Except.error e =>
                (SearchWebResult.failure e, some (query, clampMaxResults max_results))).2 =
            some (q, mr) := hcall
        rcases hres : client query (clampMaxResults max_results) with e | resp <;>
          rw [hres] at hcall1
        all_goals
          have hcall2 : some (query, clampMaxResults max_results) = some (q, mr) := hcall1
        all_goals
          have h := Option.some.inj hcall2
        all_goals
          have hm : clampMaxResults max_results = mr := congrArg Prod.snd h
        all_goals
          exact ⟨(congrArg Prod.fst h).symm, hm.symm, hm ▸ hclamp.1, hm ▸ hclamp.2⟩
  · intro n hn hlt; subst hn; simp only [clampMaxResults]; rw [if_pos hlt]
  · intro hn; subst hn; rfl
  · intro n hn hgt; subst hn; simp only [clampMaxResults]
    rw [if_neg (by omega), if_pos hgt]

/-- Witness for C9: the guards and the clamping at concrete inputs — an
empty query, a whitespace query, an over-long query, and client calls at
`max_results` 0, 99 and a non-int. -/
theorem C9_search_web_validation_witness :
    search_web (fun _ _ => Except.ok ⟨"r"⟩) "" (.int 5) =
      (.failure "Search query cannot be empty", none) ∧
    search_web (fun _ _ => Except.ok ⟨"r"⟩) "   " (.int 5) =
      (.failure "Search query cannot be empty", none) ∧
    clampMaxResults (.int 0) = 5 ∧
    clampMaxResults .nonInt = 5 ∧
    clampMaxResults (.int 99) = 10 ∧
    (("ok" : String) = "ok" ∧ (10 : ℤ) = clampMaxResults (.int 99) ∧
      (1 : ℤ) ≤ 10 ∧ (10 : ℤ) ≤ 10) := by
  refine ⟨?_, ?_, ?_, ?_, ?_, ?_⟩
  · exact (C9_search_web_validation (fun _ _ => Except.ok ⟨"r"⟩) "" (.int 5)).1
      (Or.inl rfl)
  · exact (C9_search_web_validation (fun _ _ => Except.ok ⟨"r"⟩) "   " (.int 5)).1
      (Or.inr (by decide))
  · exact (C9_search_web_validation (fun _ _ => Except.ok ⟨"r"⟩) "q" (.int 0)).2.2.2.1
      0 rfl (by omega)
  · exact (C9_search_web_validation (fun _ _ => Except.ok ⟨"r"⟩) "q" .nonInt).2.2.2.2.1 rfl
  · exact (C9_search_web_validation (fun _ _ => Except.ok ⟨"r"⟩) "q" (.int 99)).2.2.2.2.2
      99 rfl (by omega)
  · exact (C9_search_web_validation (fun _ _ => Except.ok ⟨"r"⟩) "ok" (.int 99)).2.2.1
      "ok" 10 rfl

/-! ### `src/config/tavily.py` — `TavilyClientWithFallback.search` -/

/-- A Python exception as the classifier sees it: `str(e)` and
`type(e).__name__`. -/
structure PyExn where
  msg : String
  typeName : String
deriving DecidableEq, Repr

/-- Python `str.lower()` (character-wise). -/
def pyLower (s : String) : String := ⟨s.data.map Char.toLower⟩

/-- The `rate_limit_indicators` list of `_is_rate_limit_error`. -/
def rate_limit_indicators : List String :=
  ["rate limit", "ratelimit", "too many requests",
    "429", "quota exceeded", "limit exceeded",
    "usage limit", "forbidden", "plan\x27s set usage limit"]

/-- `_is_rate_limit_error`: some indicator occurs in the lowercased
message or the lowercased type name. -/
def is_rate_limit_error (e : PyExn) : Bool :=
  let error_msg := pyLower e.msg
  let error_type := pyLower e.typeName
  rate_limit_indicators.any
    (fun phrase => containsSub error_msg phrase || containsSub error_type phrase)

/-- The outcome of one `search` invocation: a result, a re-raised
non-rate-limit exception, or a raised `RuntimeError`. -/
inductive TavOutcome where
  | ok (r : TavResp)
  | reraise (e : PyExn)
  | runtimeError (msg : String)
deriving DecidableEq, Repr

/-- One run of the retry loop: its outcome, the `current_key_index` used
by each underlying `self._client.search(...)` call in order, and the
final `current_key_index`. -/
structure TavRun where
  outcome : TavOutcome
  keysUsed : List ℕ
  finalIndex : ℕ
deriving DecidableEq, Repr

/-- The `while attempts < max_attempts` loop.  `oracle j` is the result
of the `j`-th underlying `search` call of this invocation (`.error` = it
raised); `nKeys` is `len(self.api_keys)`; the fuel is
`max_attempts - attempts`, so the guard is `fuel > 0`.  A rate-limit
error switches to the next key iff `current + 1 < nKeys`
(`_switch_to_next_key`) and retries; otherwise the "All Tavily API keys
have hit rate limits" `RuntimeError` is raised.  A non-rate-limit error
is re-raised at once.  The `fuel = 0` case is the `RuntimeError` after
the loop (unreachable from a fresh client, kept for fidelity). -/
def tavSearchGo (oracle : ℕ → Except PyExn TavResp) (nKeys : ℕ) :
    ℕ → ℕ → List ℕ → ℕ → TavRun
  | idx, _callNum, used, 0 =>
    ⟨.runtimeError "Failed to execute search after exhausting all API keys", used, idx⟩
  | idx, callNum, used, fuel + 1 =>
    let used1 := used ++ [idx]
    match oracle callNum with
    | .ok r => ⟨.ok r, used1, idx⟩
    | .error e =>
      if is_rate_limit_error e then
        if idx + 1 < nKeys then
          tavSearchGo oracle nKeys (idx + 1) (callNum + 1) used1 fuel
        else ⟨.runtimeError "All Tavily API keys have hit rate limits", used1, idx⟩
      else ⟨.reraise e, used1, idx⟩

/-- `TavilyClientWithFallback.search` on a client whose
`current_key_index` is `idx` (0 on a fresh client) over `api_keys`:
`attempts = 0`, `max_attempts = len(self.api_keys)`. -/
def TavilyClientWithFallback.search (oracle : ℕ → Except PyExn TavResp)
    (api_keys : List String) (idx : ℕ) : TavRun :=
  tavSearchGo oracle api_keys.length idx 0 [] api_keys.length

/-- Full characterization of the retry loop, by induction on the fuel:
the key indices used are consecutive from the start index, the number of
calls is bounded by the fuel, every call before the last followed a
rate-limit-classified error, a non-rate-limit error ends the run at once
with a re-raise and no further switch, and an all-rate-limit oracle with
enough fuel exhausts the keys into the RuntimeError. -/
theorem tavSearchGo_spec (oracle : ℕ → Except PyExn TavResp) (nKeys : ℕ) :
    ∀ (fuel idx callNum : ℕ) (used : List ℕ),
    ∃ m,
      (tavSearchGo oracle nKeys idx callNum used fuel).keysUsed =
        used ++ List.range' idx m ∧
      m ≤ fuel ∧
      (∀ j, j + 1 < m →
        ∃ e, oracle (callNum + j) = .error e ∧ is_rate_limit_error e = true) ∧
      (∀ j e, j < m → oracle (callNum + j) = .error e →
        is_rate_limit_error e = false →
        (tavSearchGo oracle nKeys idx callNum used fuel).outcome = .reraise e ∧
        m = j + 1 ∧
        (tavSearchGo oracle nKeys idx callNum used fuel).finalIndex = idx + j) ∧
      ((nKeys - idx ≤ fuel ∧ idx < nKeys ∧
          ∀ j, j < nKeys - idx →
            ∃ e, oracle (callNum + j) = .error e ∧ is_rate_limit_error e = true) →
        (tavSearchGo oracle nKeys idx callNum used fuel).outcome =
          .runtimeError "All Tavily API keys have hit rate limits") := by
  intro fuel
  induction fuel with
  | zero =>
    intro idx callNum used
    refine ⟨0, by simp [tavSearchGo], Nat.le_refl 0, fun j hj => absurd hj (by omega),
      fun j e hj => absurd hj (by omega), fun h => absurd h (by omega)⟩
  | succ f ih =>
    intro idx callNum used
    cases hc : oracle callNum with
    | ok r =>
      refine ⟨1, by simp [tavSearchGo, hc], by omega,
        fun j hj => absurd hj (by omega), ?_, ?_⟩
      · intro j e hj hor _
        have : j = 0 := by omega
        subst this
        rw [Nat.add_zero] at hor
        rw [hc] at hor
        exact absurd hor (by simp)
      · rintro ⟨_, hidx, hall⟩
        rcases hall 0 (by omega) with ⟨e, he, _⟩
        rw [Nat.add_zero, hc] at he
        exact absurd he (by simp)
    | error e =>
      by_cases hrl : is_rate_limit_error e
      · by_cases hsw : idx + 1 < nKeys
        · -- switch and retry
          rcases ih (idx + 1) (callNum + 1) (used ++ [idx]) with
            ⟨m, hkeys, hm, hretry, hre, hexh⟩
          have hstep : tavSearchGo oracle nKeys idx callNum used (f + 1) =
              tavSearchGo oracle nKeys (idx + 1) (callNum + 1) (used ++ [idx]) f := by
            simp [tavSearchGo, hc, hrl, hsw]
          refine ⟨m + 1, ?_, by omega, ?_, ?_, ?_⟩
          · rw [hstep, hkeys, List.range'_succ]
            simp
          · intro j hj
            cases j with
            | zero => exact ⟨e, by simpa using hc, hrl⟩
            | succ k =>
              rcases hretry k (by omega) with ⟨e', he', hrl'⟩
              exact ⟨e', by rw [show callNum + (k + 1) = callNum + 1 + k by omega]; exact he',
                hrl'⟩
          · intro j e' hj hor hnrl
            cases j with
            | zero =>
              rw [Nat.add_zero, hc] at hor
              injection hor with heq
              subst heq
              exact absurd hrl (by simp [hnrl])
            | succ k =>
              have hor' : oracle (callNum + 1 + k) = .error e' := by
                rw [show callNum + 1 + k = callNum + (k + 1) by omega]; exact hor
              rcases hre k e' (by omega) hor' hnrl with ⟨hout, hmk, hfin⟩
              exact ⟨by rw [hstep]; exact hout, by omega,
                by rw [hstep, hfin]; omega⟩
          · rintro ⟨hfuel, hidx, hall⟩
            rw [hstep]
            refine hexh ⟨by omega, hsw, ?_⟩
            intro j hj
            rcases hall (j + 1) (by omega) with ⟨e', he', hrl'⟩
            exact ⟨e', by rw [show callNum + 1 + j = callNum + (j + 1) by omega]; exact he',
              hrl'⟩
        · -- keys exhausted: RuntimeError
          have hstep : tavSearchGo oracle nKeys idx callNum used (f + 1) =
              ⟨.runtimeError "All Tavily API keys have hit rate limits",
                used ++ [idx], idx⟩ := by
            simp [tavSearchGo, hc, hrl, hsw]
          refine ⟨1, by rw [hstep]; simp, by omega,
            fun j hj => absurd hj (by omega), ?_, fun _ => by rw [hstep]⟩
          intro j e' hj hor hnrl
          have : j = 0 := by omega
          subst this
          rw [Nat.add_zero, hc] at hor
          injection hor with heq
          subst heq
          exact absurd hrl (by simp [hnrl])
      · -- non-rate-limit: re-raise immediately
        have hstep : tavSearchGo oracle nKeys idx callNum used (f + 1) =
            ⟨.reraise e, used ++ [idx], idx⟩ := by
          simp [tavSearchGo, hc, hrl]
        refine ⟨1, by rw [hstep]; simp, by omega,
          fun j hj => absurd hj (by omega), ?_, ?_⟩
        · intro j e' hj hor _
          have : j = 0 := by omega
          subst this
          rw [Nat.add_zero, hc] at hor
          injection hor with heq
          subst heq
          exact ⟨by rw [hstep], rfl, by rw [hstep]; simp⟩
        · rintro ⟨_, hidx, hall⟩
          rcases hall 0 (by omega) with ⟨e', he', hrl'⟩
          rw [Nat.add_zero, hc] at he'
          injection he' with heq
          subst heq
          exact absurd hrl' (by simp [hrl])

/-- C10: an invocation of `TavilyClientWithFallback.search` on a fresh
client over `n` configured keys makes at most `n` underlying search
attempts; the key indices used are strictly increasing (each switch moves
to the next key, never back); every attempt before the last followed an
error classified as a rate limit (a retry happens only then); a
non-rate-limit error ends the invocation at once as a re-raise, with no
key switch; and an oracle that rate-limits on every key exhausts them all
into the `RuntimeError`. -/
theorem C10_tavily_fallback (oracle : ℕ → Except PyExn TavResp)
    (api_keys : List String) :
    (TavilyClientWithFallback.search oracle api_keys 0).keysUsed.length ≤
      api_keys.length ∧
    (TavilyClientWithFallback.search oracle api_keys 0).keysUsed.Pairwise (· < ·) ∧
    (∀ j, j + 1 < (TavilyClientWithFallback.search oracle api_keys 0).keysUsed.length →
      ∃ e, oracle j = .error e ∧ is_rate_limit_error e = true) ∧
    (∀ j e, j < (TavilyClientWithFallback.search oracle api_keys 0).keysUsed.length →
      oracle j = .error e → is_rate_limit_error e = false →
      (TavilyClientWithFallback.search oracle api_keys 0).outcome = .reraise e ∧
      (TavilyClientWithFallback.search oracle api_keys 0).keysUsed.length = j + 1 ∧
      (TavilyClientWithFallback.search oracle api_keys 0).finalIndex = j) ∧
    (api_keys ≠ [] →
      (∀ j, j < api_keys.length →
        ∃ e, oracle j = .error e ∧ is_rate_limit_error e = true) →
      (TavilyClientWithFallback.search oracle api_keys 0).outcome =
        .runtimeError "All Tavily API keys have hit rate limits") := by
  rcases tavSearchGo_spec oracle api_keys.length api_keys.length 0 0 [] with
    ⟨m, hkeys, hm, hretry, hre, hexh⟩
  have hk : (TavilyClientWithFallback.search oracle api_keys 0).keysUsed =
      List.range' 0 m := by
    unfold TavilyClientWithFallback.search
    rw [hkeys, List.nil_append]
  have hlen : (TavilyClientWithFallback.search oracle api_keys 0).keysUsed.length = m := by
    rw [hk, List.length_range']
  refine ⟨?_, ?_, ?_, ?_, ?_⟩
  · rw [hlen]; exact hm
  · rw [hk]; exact List.pairwise_lt_range' 0 m
  · intro j hj
    rw [hlen] at hj
    rcases hretry j hj with ⟨e, he, hrl⟩
    rw [Nat.zero_add] at he
    exact ⟨e, he, hrl⟩
  · intro j e hj hor hnrl
    rw [hlen] at hj
    have hor' : oracle (0 + j) = .error e := by rw [Nat.zero_add]; exact hor
    rcases hre j e hj hor' hnrl with ⟨hout, hmj, hfin⟩
    refine ⟨hout, by rw [hlen]; exact hmj, ?_⟩
    have : (TavilyClientWithFallback.search oracle api_keys 0).finalIndex = 0 + j := hfin
    rw [Nat.zero_add] at this
    exact this
  · intro hne hall
    refine hexh ⟨by omega, List.length_pos.mpr hne, ?_⟩
    intro j hj
    rcases hall j (by omega) with ⟨e, he, hrl⟩
    exact ⟨e, by rw [Nat.zero_add]; exact he, hrl⟩

/-- A concrete oracle: the first key rate-limits, the second raises a
non-rate-limit error. -/
def oracleMixed : ℕ → Except PyExn TavResp :=
  fun j =>
    if j = 0 then Except.error ⟨"rate limit", "HTTPError"⟩
    else Except.error ⟨"boom", "ValueError"⟩

/-- A concrete oracle on which every attempt rate-limits. -/
def oracleAllRL : ℕ → Except PyExn TavResp :=
  fun _ => Except.error ⟨"429 too many requests", "HTTPError"⟩

/-- Witness for C10: with two keys the mixed oracle yields one switch,
an immediate re-raise of the non-rate-limit error on key index 1, and the
all-rate-limit oracle exhausts both keys into the RuntimeError. -/
theorem C10_tavily_fallback_witness :
    (TavilyClientWithFallback.search oracleMixed ["k1", "k2"] 0).keysUsed.length ≤ 2 ∧
    (TavilyClientWithFallback.search oracleMixed ["k1", "k2"] 0).outcome =
      .reraise ⟨"boom", "ValueError"⟩ ∧
    (TavilyClientWithFallback.search oracleMixed ["k1", "k2"] 0).finalIndex = 1 ∧
    (TavilyClientWithFallback.search oracleAllRL ["k1", "k2"] 0).outcome =
      .runtimeError "All Tavily API keys have hit rate limits" := by
  have h1 := C10_tavily_fallback oracleMixed ["k1", "k2"]
  have h2 := C10_tavily_fallback oracleAllRL ["k1", "k2"]
  refine ⟨h1.1, ?_, ?_, ?_⟩
  · exact (h1.2.2.2.1 1 ⟨"boom", "ValueError"⟩ (by decide) rfl (by decide)).1
  · exact (h1.2.2.2.1 1 ⟨"boom", "ValueError"⟩ (by decide) rfl (by decide)).2.2
  · exact h2.2.2.2.2 (by decide)
      (fun j _ => ⟨⟨"429 too many requests", "HTTPError"⟩, rfl, by decide⟩)

end Scraper
